import Mathlib

/-!
Verification of the beanstalkc Rust client's protocol codec and
request/response lifecycle, shallowly embedded in Lean 4.

The embedding follows the crate's live module tree (`lib.rs` declares
`beanstalkc`, `command`, `config`, `error`, `job`, `request`, `response`):
 - `src/command.rs`   : `CommandKind`, `Status`, `Command::build`, constructors
 - `src/request.rs`   : `Request::send` round trip over a byte stream
 - `src/response.rs`  : `body_as_vec` / `body_as_map` accessors
 - `src/beanstalkc.rs`: `Beanstalkc::send` status classification
 - `src/job.rs`       : the `Job` handle's reserved-flag state machine
 - `src/config.rs`    : default constants

Machine integers become `Nat` (the values involved are small and the Rust
code never relies on wraparound); fallible Rust code returns `Except`;
Rust panics (`unwrap`, out-of-bounds indexing) are modelled by an explicit
`panicked` outcome.  Byte strings are `List Nat` with each element < 256.
-/

namespace Beanstalk

/-- A byte of the wire stream (values 0..255). -/
abbrev Byte := Nat

/-- The 2-byte protocol line terminator `\r\n`. -/
def crlf : List Byte := [13, 10]

/-! ### UTF-8 collaborator model

`String::from_utf8`, `String::from_utf8_lossy` and UTF-8 encoding of
Rust `String`s are standard-library collaborators; they are modelled here
by the standard UTF-8 algorithms. -/

/-- UTF-8 encoding of one Unicode scalar value (standard algorithm,
matching how a Rust `String`'s bytes are produced). -/
def utf8EncodeChar (c : Char) : List Byte :=
  let n := c.toNat
  if n < 0x80 then [n]
  else if n < 0x800 then [0xC0 + n / 0x40, 0x80 + n % 0x40]
  else if n < 0x10000 then
    [0xE0 + n / 0x1000, 0x80 + (n / 0x40) % 0x40, 0x80 + n % 0x40]
  else
    [0xF0 + n / 0x40000, 0x80 + (n / 0x1000) % 0x40,
     0x80 + (n / 0x40) % 0x40, 0x80 + n % 0x40]

/-- The bytes of a Rust `String` holding `s` (UTF-8 encoding). -/
def strBytes (s : String) : List Byte := s.data.flatMap utf8EncodeChar

/-- Is `b` a UTF-8 continuation byte (`0x80..=0xBF`)? -/
def isCont (b : Byte) : Bool := 0x80 ≤ b && b ≤ 0xBF

/-- Strict UTF-8 decoding (the model of `String::from_utf8` /
`std::str::from_utf8`): `none` on any invalid byte sequence. -/
def utf8DecodeOpt : List Byte → Option (List Char)
  | [] => some []
  | b :: rest =>
    if b < 0x80 then
      (utf8DecodeOpt rest).map (fun cs => Char.ofNat b :: cs)
    else if 0xC2 ≤ b ∧ b ≤ 0xDF then
      match rest with
      | c1 :: rest1 =>
        if isCont c1 then
          (utf8DecodeOpt rest1).map
            (fun cs => Char.ofNat ((b - 0xC0) * 0x40 + (c1 - 0x80)) :: cs)
        else none
      | [] => none
    else if 0xE0 ≤ b ∧ b ≤ 0xEF then
      match rest with
      | c1 :: c2 :: rest2 =>
        let lo1 : Byte := if b = 0xE0 then 0xA0 else 0x80
        let hi1 : Byte := if b = 0xED then 0x9F else 0xBF
        if (lo1 ≤ c1 && c1 ≤ hi1) && isCont c2 then
          (utf8DecodeOpt rest2).map
            (fun cs =>
              Char.ofNat ((b - 0xE0) * 0x1000 + (c1 - 0x80) * 0x40 + (c2 - 0x80)) :: cs)
        else none
      | _ => none
    else if 0xF0 ≤ b ∧ b ≤ 0xF4 then
      match rest with
      | c1 :: c2 :: c3 :: rest3 =>
        let lo1 : Byte := if b = 0xF0 then 0x90 else 0x80
        let hi1 : Byte := if b = 0xF4 then 0x8F else 0xBF
        if (lo1 ≤ c1 && c1 ≤ hi1) && isCont c2 && isCont c3 then
          (utf8DecodeOpt rest3).map
            (fun cs =>
              Char.ofNat ((b - 0xF0) * 0x40000 + (c1 - 0x80) * 0x1000 +
                (c2 - 0x80) * 0x40 + (c3 - 0x80)) :: cs)
        else none
      | _ => none
    else none

/-- The replacement character U+FFFD as UTF-8 bytes. -/
def replacementBytes : List Byte := [0xEF, 0xBF, 0xBD]

/-- Fuel-indexed worker for `utf8LossyEncode`; every step consumes at
least one input byte, so fuel = input length always suffices. -/
def utf8LossyGo : Nat → List Byte → List Byte
  | 0, _ => []
  | _ + 1, [] => []
  | fuel + 1, b :: rest =>
    if b < 0x80 then b :: utf8LossyGo fuel rest
    else if 0xC2 ≤ b ∧ b ≤ 0xDF then
      match rest with
      | c1 :: rest1 =>
        if isCont c1 then b :: c1 :: utf8LossyGo fuel rest1
        else replacementBytes ++ utf8LossyGo fuel rest
      | [] => replacementBytes
    else if 0xE0 ≤ b ∧ b ≤ 0xEF then
      match rest with
      | c1 :: rest1 =>
        let lo1 : Byte := if b = 0xE0 then 0xA0 else 0x80
        let hi1 : Byte := if b = 0xED then 0x9F else 0xBF
        if lo1 ≤ c1 && c1 ≤ hi1 then
          match rest1 with
          | c2 :: rest2 =>
            if isCont c2 then b :: c1 :: c2 :: utf8LossyGo fuel rest2
            else replacementBytes ++ utf8LossyGo fuel rest1
          | [] => replacementBytes
        else replacementBytes ++ utf8LossyGo fuel rest
      | [] => replacementBytes
    else if 0xF0 ≤ b ∧ b ≤ 0xF4 then
      match rest with
      | c1 :: rest1 =>
        let lo1 : Byte := if b = 0xF0 then 0x90 else 0x80
        let hi1 : Byte := if b = 0xF4 then 0x8F else 0xBF
        if lo1 ≤ c1 && c1 ≤ hi1 then
          match rest1 with
          | c2 :: rest2 =>
            if isCont c2 then
              match rest2 with
              | c3 :: rest3 =>
                if isCont c3 then b :: c1 :: c2 :: c3 :: utf8LossyGo fuel rest3
                else replacementBytes ++ utf8LossyGo fuel rest2
              | [] => replacementBytes
            else replacementBytes ++ utf8LossyGo fuel rest1
          | [] => replacementBytes
        else replacementBytes ++ utf8LossyGo fuel rest
      | [] => replacementBytes
    else replacementBytes ++ utf8LossyGo fuel rest

/-- Lossy UTF-8 re-encoding (the model of `String::from_utf8_lossy`
followed by taking the resulting string's bytes): valid sequences are
kept verbatim, each maximal invalid subpart is replaced by the bytes of
U+FFFD, per the substitution-of-maximal-subparts policy Rust implements. -/
def utf8LossyEncode (l : List Byte) : List Byte := utf8LossyGo l.length l

/-! ### Small string/number helpers (standard-library collaborators) -/

/-- ASCII whitespace recognizer used for splitting reply lines
(the reply lines of this protocol are ASCII). -/
def isWS (b : Byte) : Bool := b = 32 || b = 9 || b = 10 || b = 11 || b = 12 || b = 13

/-- `str::split_whitespace` on a byte line: maximal runs of
non-whitespace bytes, in order. -/
def splitWSAux : List Byte → List Byte → List (List Byte)
  | [], acc => if acc.isEmpty then [] else [acc.reverse]
  | b :: rest, acc =>
    if isWS b then
      if acc.isEmpty then splitWSAux rest []
      else acc.reverse :: splitWSAux rest []
    else splitWSAux rest (b :: acc)

def splitWS (s : List Byte) : List (List Byte) := splitWSAux s []

/-- Decode a whitespace-free ASCII token to a `String` (tokens of a reply
line; each byte is mapped to the code point of the same value). -/
def bytesToStr (bs : List Byte) : String := ⟨bs.map (fun b => Char.ofNat b)⟩

def digitVal? (c : Char) : Option Nat :=
  if '0' ≤ c ∧ c ≤ '9' then some (c.toNat - '0'.toNat) else none

def parseDigits : List Char → Nat → Option Nat
  | [], acc => some acc
  | c :: cs, acc =>
    match digitVal? c with
    | some d => parseDigits cs (acc * 10 + d)
    | none => none

/-- Model of Rust's `str::parse` for unsigned integer types: an optional
leading `+` then one or more ASCII digits (overflow is out of scope:
the embedded values are unbounded `Nat`). -/
def parseNatStr (s : String) : Option Nat :=
  match s.data with
  | [] => none
  | '+' :: cs =>
    match cs with
    | [] => none
    | _ => parseDigits cs 0
  | cs => parseDigits cs 0

/-- Model of `str::parse::<u32>`: as `parseNatStr` but failing when the
value does not fit in 32 bits. -/
def parseU32Str (s : String) : Option Nat :=
  match parseNatStr s with
  | some n => if n < 2 ^ 32 then some n else none
  | none => none

/-! ### `src/error.rs` -/

/-- `BeanstalkcError` (src/error.rs): the crate's three error kinds, each
carrying a message string. -/
inductive BeanstalkcError where
  | ConnectionError (msg : String)
  | UnexpectedResponse (msg : String)
  | CommandFailed (msg : String)
deriving DecidableEq

instance {ε α : Type} [DecidableEq ε] [DecidableEq α] : DecidableEq (Except ε α) :=
  fun x y =>
    match x, y with
    | .ok a, .ok b =>
      if h : a = b then .isTrue (by rw [h]) else .isFalse (by simp [h])
    | .error a, .error b =>
      if h : a = b then .isTrue (by rw [h]) else .isFalse (by simp [h])
    | .ok _, .error _ => .isFalse (by simp)
    | .error _, .ok _ => .isFalse (by simp)

/-- Is this `Except` outcome an `UnexpectedResponse` error? -/
def isUnexpectedResponseErr {α : Type} : Except BeanstalkcError α → Bool
  | .error (.UnexpectedResponse _) => true
  | _ => false

/-! ### `src/command.rs`: `Status` and `CommandKind` -/

/-- `Status` (src/command.rs lines 67-92): the closed vocabulary of
protocol reply keywords. -/
inductive Status where
  | Ok
  | Found
  | NotFound
  | Reserved
  | DeadlineSoon
  | TimedOut
  | Deleted
  | Released
  | Buried
  | Kicked
  | Using
  | Watching
  | Touched
  | Inserted
  | NotIgnored
  | OutOfMemory
  | InternalError
  | Draining
  | BadFormat
  | UnknownCommand
  | ExpectedCRLF
  | JobTooBig
  | Paused
deriving DecidableEq

/-- The 23 recognized status-line keywords, in source order. -/
def statusKeywords : List String :=
  ["OK", "FOUND", "NOT_FOUND", "RESERVED", "DEADLINE_SOON", "TIMED_OUT",
   "DELETED", "RELEASED", "BURIED", "KICKED", "USING", "WATCHING",
   "TOUCHED", "INSERTED", "NOT_IGNORED", "OUT_OF_MEMORY", "INTERNAL_ERROR",
   "DRAINING", "BAD_FORMAT", "UNKNOWN_COMMAND", "EXPECTED_CRLF",
   "JOB_TOO_BIG", "PAUSED"]

/-- `Status::from_str` (src/command.rs lines 94-128): match each keyword;
on anything else return `Err(BeanstalkcError::CommandFailed(s))`. -/
def statusFromStr (s : String) : Except BeanstalkcError Status :=
  if s = "OK" then .ok .Ok
  else if s = "FOUND" then .ok .Found
  else if s = "NOT_FOUND" then .ok .NotFound
  else if s = "RESERVED" then .ok .Reserved
  else if s = "DEADLINE_SOON" then .ok .DeadlineSoon
  else if s = "TIMED_OUT" then .ok .TimedOut
  else if s = "DELETED" then .ok .Deleted
  else if s = "RELEASED" then .ok .Released
  else if s = "BURIED" then .ok .Buried
  else if s = "KICKED" then .ok .Kicked
  else if s = "USING" then .ok .Using
  else if s = "WATCHING" then .ok .Watching
  else if s = "TOUCHED" then .ok .Touched
  else if s = "INSERTED" then .ok .Inserted
  else if s = "NOT_IGNORED" then .ok .NotIgnored
  else if s = "OUT_OF_MEMORY" then .ok .OutOfMemory
  else if s = "INTERNAL_ERROR" then .ok .InternalError
  else if s = "DRAINING" then .ok .Draining
  else if s = "BAD_FORMAT" then .ok .BadFormat
  else if s = "UNKNOWN_COMMAND" then .ok .UnknownCommand
  else if s = "EXPECTED_CRLF" then .ok .ExpectedCRLF
  else if s = "JOB_TOO_BIG" then .ok .JobTooBig
  else if s = "PAUSED" then .ok .Paused
  else .error (.CommandFailed s)

/-- The `{:?}` Debug rendering of a `Status` (derived `Debug` prints the
variant name), used by `Beanstalkc::send` to build error messages. -/
def statusDebug : Status → String
  | .Ok => "Ok"
  | .Found => "Found"
  | .NotFound => "NotFound"
  | .Reserved => "Reserved"
  | .DeadlineSoon => "DeadlineSoon"
  | .TimedOut => "TimedOut"
  | .Deleted => "Deleted"
  | .Released => "Released"
  | .Buried => "Buried"
  | .Kicked => "Kicked"
  | .Using => "Using"
  | .Watching => "Watching"
  | .Touched => "Touched"
  | .Inserted => "Inserted"
  | .NotIgnored => "NotIgnored"
  | .OutOfMemory => "OutOfMemory"
  | .InternalError => "InternalError"
  | .Draining => "Draining"
  | .BadFormat => "BadFormat"
  | .UnknownCommand => "UnknownCommand"
  | .ExpectedCRLF => "ExpectedCRLF"
  | .JobTooBig => "JobTooBig"
  | .Paused => "Paused"

/-- `CommandKind` (src/command.rs lines 7-33). -/
inductive CommandKind where
  | Put
  | PeekJob
  | PeekReady
  | PeekDelayed
  | PeekBuried
  | Reserve
  | ReserveTimeout
  | Delete
  | Release
  | Bury
  | Kick
  | JobKick
  | Touch
  | Stats
  | JobStats
  | Use
  | Watch
  | Ignore
  | ListTubes
  | ListTubeUsed
  | ListTubesWatched
  | StatsTube
  | Quit
  | PauseTube
deriving DecidableEq

/-- `CommandKind::to_string` (src/command.rs lines 35-65). -/
def kindToString : CommandKind → String
  | .Put => "put"
  | .PeekJob => "peek"
  | .PeekReady => "peek-ready"
  | .PeekDelayed => "peek-delayed"
  | .PeekBuried => "peek-buried"
  | .Reserve => "reserve"
  | .ReserveTimeout => "reserve-with-timeout"
  | .Delete => "delete"
  | .Release => "release"
  | .Bury => "bury"
  | .Kick => "kick"
  | .JobKick => "kick-job"
  | .Touch => "touch"
  | .Stats => "stats"
  | .JobStats => "stats-job"
  | .Use => "use"
  | .Watch => "watch"
  | .Ignore => "ignore"
  | .ListTubes => "list-tubes"
  | .ListTubeUsed => "list-tube-used"
  | .ListTubesWatched => "list-tubes-watched"
  | .StatsTube => "stats-tube"
  | .Quit => "quit"
  | .PauseTube => "pause-tube"

/-! ### `src/command.rs`: `Command`, `build`, constructors

Rust `Duration` arguments only ever reach the wire through `as_secs()`,
so durations are embedded directly as their whole-second `Nat` value. -/

/-- `Command` (src/command.rs lines 130-137). -/
structure Command where
  kind : CommandKind
  args : List String
  body : Option (List Byte)
  expected_ok_status : List Status
  expected_error_status : List Status

/-- `Command::build` (src/command.rs lines 156-175), expressed as the
bytes of the returned `String`: name, then a space-joined argument list
when non-empty, then — when a body is present — a space, the decimal
byte-length of the original body, CRLF and the body passed through
`String::from_utf8_lossy`; finally CRLF. -/
def Command.buildBytes (c : Command) : List Byte :=
  let line :=
    if c.args.isEmpty then kindToString c.kind
    else kindToString c.kind ++ " " ++ String.intercalate " " c.args
  match c.body with
  | none => strBytes line ++ crlf
  | some b =>
    strBytes (line ++ " " ++ toString b.length) ++ crlf ++
      utf8LossyEncode b ++ crlf

/-- `put` (src/command.rs lines 179-191). -/
def put (body : List Byte) (priority : Nat) (delaySecs : Nat) (ttrSecs : Nat) :
    Command :=
  { kind := .Put
    args := [toString priority, toString delaySecs, toString ttrSecs]
    body := some body
    expected_ok_status := [.Inserted]
    expected_error_status := [.JobTooBig, .Buried, .Draining] }

/-- `reserve` (src/command.rs lines 193-206). -/
def reserve (timeoutSecs : Option Nat) : Command :=
  { kind := match timeoutSecs with
            | none => .Reserve
            | some _ => .ReserveTimeout
    args := match timeoutSecs with
            | none => []
            | some t => [toString t]
    body := none
    expected_ok_status := [.Reserved]
    expected_error_status := [.TimedOut, .DeadlineSoon] }

/-- `kick` (src/command.rs lines 208-216). -/
def kick (bound : Nat) : Command :=
  { kind := .Kick
    args := [toString bound]
    body := none
    expected_ok_status := [.Kicked]
    expected_error_status := [] }

/-- `kick_job` (src/command.rs lines 218-226). -/
def kick_job (job_id : Nat) : Command :=
  { kind := .JobKick
    args := [toString job_id]
    body := none
    expected_ok_status := [.Kicked]
    expected_error_status := [.NotFound] }

/-- The shared `peek` helper (src/command.rs lines 244-252). -/
def peek (kind : CommandKind) (args : List String) : Command :=
  { kind := kind
    args := args
    body := none
    expected_ok_status := [.Found]
    expected_error_status := [.NotFound] }

/-- `peek_job` (src/command.rs lines 228-230). -/
def peek_job (job_id : Nat) : Command := peek .PeekJob [toString job_id]

/-- `peek_ready` (src/command.rs lines 232-234). -/
def peek_ready : Command := peek .PeekReady []

/-- `peek_delayed` (src/command.rs lines 236-238). -/
def peek_delayed : Command := peek .PeekDelayed []

/-- `peek_buried` (src/command.rs lines 240-242). -/
def peek_buried : Command := peek .PeekBuried []

/-- `tubes` (src/command.rs lines 254-262). -/
def tubes : Command :=
  { kind := .ListTubes, args := [], body := none
    expected_ok_status := [.Ok], expected_error_status := [] }

/-- `using` (src/command.rs lines 264-272). -/
def usingCmd : Command :=
  { kind := .ListTubeUsed, args := [], body := none
    expected_ok_status := [.Using], expected_error_status := [] }

/-- `use_tube` (src/command.rs lines 274-282). -/
def use_tube (name : String) : Command :=
  { kind := .Use, args := [name], body := none
    expected_ok_status := [.Using], expected_error_status := [] }

/-- `watching` (src/command.rs lines 284-292). -/
def watching : Command :=
  { kind := .ListTubesWatched, args := [], body := none
    expected_ok_status := [.Ok], expected_error_status := [] }

/-- `watch` (src/command.rs lines 294-302). -/
def watch (name : String) : Command :=
  { kind := .Watch, args := [name], body := none
    expected_ok_status := [.Watching], expected_error_status := [] }

/-- `ignore` (src/command.rs lines 304-312). -/
def ignoreCmd (name : String) : Command :=
  { kind := .Ignore, args := [name], body := none
    expected_ok_status := [.Watching], expected_error_status := [.NotIgnored] }

/-- `stats` (src/command.rs lines 314-316). -/
def stats : Command :=
  { kind := .Stats, args := [], body := none
    expected_ok_status := [.Ok], expected_error_status := [] }

/-- `stats_tube` (src/command.rs lines 318-326). -/
def stats_tube (name : String) : Command :=
  { kind := .StatsTube, args := [name], body := none
    expected_ok_status := [.Ok], expected_error_status := [.NotFound] }

/-- `pause_tube` (src/command.rs lines 328-336). -/
def pause_tube (name : String) (delaySecs : Nat) : Command :=
  { kind := .PauseTube, args := [name, toString delaySecs], body := none
    expected_ok_status := [.Paused], expected_error_status := [.NotFound] }

/-- `delete` (src/command.rs lines 338-346). -/
def deleteCmd (job_id : Nat) : Command :=
  { kind := .Delete, args := [toString job_id], body := none
    expected_ok_status := [.Deleted], expected_error_status := [.NotFound] }

/-- `release` (src/command.rs lines 348-360): arguments are the job id,
the priority and the delay, in that order. -/
def release (job_id : Nat) (priority : Nat) (delaySecs : Nat) : Command :=
  { kind := .Release
    args := [toString job_id, toString priority, toString delaySecs]
    body := none
    expected_ok_status := [.Released, .Buried]
    expected_error_status := [.NotFound] }

/-- `bury` (src/command.rs lines 362-370). -/
def bury (job_id : Nat) (priority : Nat) : Command :=
  { kind := .Bury, args := [toString job_id, toString priority], body := none
    expected_ok_status := [.Buried], expected_error_status := [.NotFound] }

/-- `touch` (src/command.rs lines 372-380). -/
def touchCmd (job_id : Nat) : Command :=
  { kind := .Touch, args := [toString job_id], body := none
    expected_ok_status := [.Touched], expected_error_status := [.NotFound] }

/-- `stats_job` (src/command.rs lines 382-390). -/
def stats_job (job_id : Nat) : Command :=
  { kind := .JobStats, args := [toString job_id], body := none
    expected_ok_status := [.Ok], expected_error_status := [.NotFound] }

/-- `quit` (src/command.rs lines 392-394). -/
def quitCmd : Command :=
  { kind := .Quit, args := [], body := none
    expected_ok_status := [], expected_error_status := [] }

/-! ### `src/config.rs` -/

def DEFAULT_PORT : Nat := 11300

/-- `DEFAULT_JOB_PRIORITY` (src/config.rs line 7): the source text is
`2 ^ 31`, and `^` is bitwise XOR in Rust, so the constant is
`Nat.xor 2 31`, not two raised to the 31st power. -/
def DEFAULT_JOB_PRIORITY : Nat := Nat.xor 2 31

/-- `DEFAULT_JOB_TTR` (src/config.rs line 8), in whole seconds. -/
def DEFAULT_JOB_TTR : Nat := 120

/-- `DEFAULT_JOB_DELAY` (src/config.rs line 9), in whole seconds. -/
def DEFAULT_JOB_DELAY : Nat := 0

/-! ### `src/request.rs`: the transport round trip

`Request::send` writes the command bytes, flushes, reads one reply line,
parses the status and parameters, and - for `Ok`/`Reserved` - reads the
announced body.  The socket is modelled by the byte sequence the server
has sent (`input`) plus injectable I/O outcomes for each of the four
stream operations the function performs.  Rust panics (`unwrap` on a
failed write/flush, `Vec` indexing out of bounds) are the explicit
`panicked` outcome. -/

/-- The decoded reply of `request.rs` (its local `Response` struct,
lines 10-15): status, parameter tokens, optional body *string*. -/
structure RawResponse where
  status : Status
  params : List String
  body : Option String
deriving DecidableEq

/-- The socket model seen by one `Request::send` call. -/
structure StreamModel where
  /-- Outcome of `stream.write(message)`; payload is the I/O error text. -/
  writeRes : Except String Unit
  /-- Outcome of `stream.flush()`. -/
  flushRes : Except String Unit
  /-- Outcome of `stream.read_line(..)` (the source drops this result;
  on failure the line buffer is left empty). -/
  readLineRes : Except String Unit
  /-- Outcome of the single `stream.read(..)` used for the body. -/
  readRes : Except String Unit
  /-- Bytes the server has sent and the client has not yet consumed. -/
  input : List Byte

/-- `BufRead::read_line`: consume bytes up to and including the first
LF (or everything when no LF remains); returns (line, rest). -/
def readLineBytes : List Byte → List Byte × List Byte
  | [] => ([], [])
  | b :: rest =>
    if b = 10 then ([b], rest)
    else
      let r := readLineBytes rest
      (b :: r.1, r.2)

/-- The result of one `Request::send` call: either a Rust panic or the
function's `BeanstalkcResult<Response>` value. -/
inductive SendOutcome where
  | panicked
  | result (r : Except BeanstalkcError RawResponse)
deriving DecidableEq

/-- The operation-specific parameter slot holding the body byte-length
(the `match response.status` of src/request.rs lines 56-62): index 0 for
`Ok`, index 1 for `Reserved`; every other status — `Found` included —
falls to the default arm and returns without reading any body. -/
def bodyLenParamIndex : Status → Option Nat
  | .Ok => some 0
  | .Reserved => some 1
  | _ => none

/-- `Request::send` (src/request.rs lines 37-71).  Step by step:
`write(message).unwrap()`, `flush().unwrap()`, `read_line` with the
result dropped, the empty-line check, `split_whitespace`,
`Status::from_str` on token 0 (`""` when absent), then — when
`bodyLenParamIndex` names a slot — index into `params` (Rust indexing
panics when out of range), parse the length `n`, allocate `n + 2` zero
bytes, issue one `read` (which fills `min (n+2) input.length` bytes,
leaving the zero padding on a short read), truncate to `n`, and decode
the result with `String::from_utf8`. -/
def sendModel (sm : StreamModel) (_message : List Byte) : SendOutcome :=
  match sm.writeRes with
  | .error _ => .panicked
  | .ok _ =>
  match sm.flushRes with
  | .error _ => .panicked
  | .ok _ =>
  let lineRead :=
    match sm.readLineRes with
    | .error _ => (([] : List Byte), sm.input)
    | .ok _ => readLineBytes sm.input
  let lineBytes := lineRead.1
  let rest := lineRead.2
  if lineBytes.all isWS then
    .result (.error (.UnexpectedResponse "empty response"))
  else
    let parts := splitWS lineBytes
    match statusFromStr (bytesToStr (parts.headD [])) with
    | .error e => .result (.error e)
    | .ok st =>
      let params := (parts.drop 1).map bytesToStr
      match bodyLenParamIndex st with
      | none => .result (.ok ⟨st, params, none⟩)
      | some i =>
        match params.get? i with
        | none => .panicked
        | some lenStr =>
          match parseNatStr lenStr with
          | none => .result (.error (.UnexpectedResponse "invalid digit found in string"))
          | some n =>
            match sm.readRes with
            | .error m => .result (.error (.ConnectionError m))
            | .ok _ =>
              let k := min (n + 2) rest.length
              let tmp := rest.take k ++ List.replicate (n + 2 - k) 0
              let bodyBytes := tmp.take n
              match utf8DecodeOpt bodyBytes with
              | none => .result (.error (.UnexpectedResponse "invalid utf-8 sequence"))
              | some cs => .result (.ok ⟨st, params, some ⟨cs⟩⟩)

/-- A stream model whose four I/O operations all succeed and whose
pending input is `input`. -/
def okStream (input : List Byte) : StreamModel :=
  ⟨.ok (), .ok (), .ok (), .ok (), input⟩

/-! ### `src/beanstalkc.rs`: dispatch and status classification -/

/-- The classification step of `Beanstalkc::send` (src/beanstalkc.rs
lines 623-632): success when the status is in the command's expected-ok
list, `CommandFailed` (carrying the status's Debug text) when in the
expected-error list, `UnexpectedResponse` otherwise. -/
def classifyResponse (c : Command) (resp : RawResponse) :
    Except BeanstalkcError RawResponse :=
  if resp.status ∈ c.expected_ok_status then .ok resp
  else if resp.status ∈ c.expected_error_status then
    .error (.CommandFailed (statusDebug resp.status))
  else .error (.UnexpectedResponse (statusDebug resp.status))

/-- `Beanstalkc::send` (src/beanstalkc.rs lines 613-633) together with
the bytes it hands to the socket: with no open transport it returns
`ConnectionError "invalid connection"` having written nothing; otherwise
it builds the command, runs the round trip, and classifies a decoded
response. -/
def clientSend (stream : Option StreamModel) (c : Command) :
    SendOutcome × List Byte :=
  match stream with
  | none => (.result (.error (.ConnectionError "invalid connection")), [])
  | some sm =>
    match sendModel sm c.buildBytes with
    | .panicked => (.panicked, c.buildBytes)
    | .result (.error e) => (.result (.error e), c.buildBytes)
    | .result (.ok resp) => (.result (classifyResponse c resp), c.buildBytes)

/-- The result of a public client operation returning `()`: a panic or
the `BeanstalkcResult<()>` value. -/
inductive UnitOutcome where
  | panicked
  | result (r : Except BeanstalkcError Unit)
deriving DecidableEq

/-- Forget a successful response's payload (the `.map(|_| ())` applied
by unit-returning operations). -/
def SendOutcome.toUnit : SendOutcome → UnitOutcome
  | .panicked => .panicked
  | .result (.error e) => .result (.error e)
  | .result (.ok _) => .result (.ok ())

/-- `Beanstalkc::release` (src/beanstalkc.rs lines 545-548): send the
release command and map a successful response to unit. -/
def clientRelease (stream : Option StreamModel) (job_id priority delaySecs : Nat) :
    UnitOutcome × List Byte :=
  let r := clientSend stream (release job_id priority delaySecs)
  (r.1.toUnit, r.2)

/-! ### `src/response.rs`: body accessors

`Response` in response.rs carries `body: Option<Vec<u8>>`.  Its
`body_as_map` / `body_as_vec` decode the body as UTF-8 (`?` on failure)
and then hand the string to the external `serde_yaml::from_str`
collaborator with `.unwrap_or_default()`.  The YAML collaborator is
abstracted as a parser argument; concrete flat-format parsers for the
two shapes the protocol uses are modelled from the spec below. -/

/-- `Response::body_as_vec` (src/response.rs lines 44-53), generic in
the YAML collaborator `p`: absent body gives `[]`; a non-UTF-8 body is
an error; a parse failure is swallowed by `.unwrap_or_default()`. -/
def bodyAsVecGen (p : String → Option (List String))
    (body : Option (List Byte)) : Except BeanstalkcError (List String) :=
  match body with
  | none => .ok []
  | some b =>
    match utf8DecodeOpt b with
    | none => .error (.UnexpectedResponse "invalid utf-8 sequence")
    | some cs => .ok ((p ⟨cs⟩).getD [])

/-- `Response::body_as_map` (src/response.rs lines 33-42), generic in
the YAML collaborator `p`; the map is embedded as an association list. -/
def bodyAsMapGen (p : String → Option (List (String × String)))
    (body : Option (List Byte)) : Except BeanstalkcError (List (String × String)) :=
  match body with
  | none => .ok []
  | some b =>
    match utf8DecodeOpt b with
    | none => .error (.UnexpectedResponse "invalid utf-8 sequence")
    | some cs => .ok ((p ⟨cs⟩).getD [])

/-- Split a character list on newline characters, keeping empty
segments. -/
def splitOnNL : List Char → List (List Char)
  | [] => [[]]
  | c :: rest =>
    if c = '\n' then [] :: splitOnNL rest
    else
      match splitOnNL rest with
      | seg :: segs => (c :: seg) :: segs
      | [] => [[c]]

/-- The lines of a body string, ignoring one trailing newline. -/
def bodyLineList (s : String) : List (List Char) :=
  let parts := splitOnNL s.data
  match parts.getLast? with
  | some [] => parts.dropLast
  | _ => parts

/-- `List.mapM` over `Option`, written out so it reduces in the
kernel. -/
def optMapM {α β : Type} (f : α → Option β) : List α → Option (List β)
  | [] => some []
  | a :: as =>
    match f a with
    | none => none
    | some b => (optMapM f as).map (fun bs => b :: bs)

/-- Modelled from the spec: the flat list format accepted by the
`serde_yaml::from_str::<Vec<String>>` collaborator (whose source is not
part of this repository) — one `- value` item per line, failing on any
line of a different shape. -/
def parseListBody (s : String) : Option (List String) :=
  optMapM
    (fun line =>
      match line with
      | '-' :: ' ' :: rest => some (⟨rest⟩ : String)
      | _ => none)
    (bodyLineList s)

def splitKVAux : List Char → List Char → Option (String × String)
  | [], _ => none
  | ':' :: ' ' :: rest, acc => some (⟨acc.reverse⟩, ⟨rest⟩)
  | c :: rest, acc => splitKVAux rest (c :: acc)

/-- Modelled from the spec: the flat map format accepted by the
`serde_yaml::from_str::<HashMap<String, String>>` collaborator (whose
source is not part of this repository) — one `key: value` pair per
line, failing on any line of a different shape. -/
def parseMapBody (s : String) : Option (List (String × String)) :=
  optMapM (fun line => splitKVAux line []) (bodyLineList s)

/-- `body_as_vec` with the modelled flat-list collaborator. -/
def bodyAsVec (body : Option (List Byte)) : Except BeanstalkcError (List String) :=
  bodyAsVecGen parseListBody body

/-- `body_as_map` with the modelled flat-map collaborator. -/
def bodyAsMap (body : Option (List Byte)) :
    Except BeanstalkcError (List (String × String)) :=
  bodyAsMapGen parseMapBody body

/-! ### `src/job.rs`: the `Job` handle state machine

A `Job` holds an id, a body and a `reserved` flag, and delegates each
operation to its connection.  The connection call's outcome is a
parameter of each operation model; every operation returns the Rust
result, the updated handle state, and whether a command was sent to the
server at all. -/

/-- The mutable state of a `Job` handle (src/job.rs lines 12-18);
the body plays no role in the state machine. -/
structure JobState where
  id : Nat
  reserved : Bool
deriving DecidableEq

/-- `Job::delete` (src/job.rs lines 74-78): always delegates
`conn.delete(self.id)`; on success clears `reserved`. -/
def jobDelete (j : JobState) (connRes : Except BeanstalkcError Unit) :
    Except BeanstalkcError Unit × JobState × Bool :=
  match connRes with
  | .ok _ => (.ok (), { j with reserved := false }, true)
  | .error e => (.error e, j, true)

/-- `Job::release` (src/job.rs lines 110-118): an immediate success
without any command when the handle is not reserved; otherwise delegates
`conn.release(self.id, priority, delay)` and clears `reserved` on
success. -/
def jobRelease (j : JobState) (_priority _delaySecs : Nat)
    (connRes : Except BeanstalkcError Unit) :
    Except BeanstalkcError Unit × JobState × Bool :=
  if !j.reserved then (.ok (), j, false)
  else
    match connRes with
    | .ok _ => (.ok (), { j with reserved := false }, true)
    | .error e => (.error e, j, true)

/-- `Job::bury` (src/job.rs lines 151-159): same shape as `release`. -/
def jobBury (j : JobState) (_priority : Nat)
    (connRes : Except BeanstalkcError Unit) :
    Except BeanstalkcError Unit × JobState × Bool :=
  if !j.reserved then (.ok (), j, false)
  else
    match connRes with
    | .ok _ => (.ok (), { j with reserved := false }, true)
    | .error e => (.error e, j, true)

/-- `Job::touch` (src/job.rs lines 191-197): no-op success when not
reserved; otherwise delegates and leaves the flag unchanged. -/
def jobTouch (j : JobState) (connRes : Except BeanstalkcError Unit) :
    Except BeanstalkcError Unit × JobState × Bool :=
  if !j.reserved then (.ok (), j, false)
  else (connRes, j, true)

/-- `Job::kick` (src/job.rs lines 174-176): always delegates
`conn.kick_job(self.id)` and leaves the flag unchanged. -/
def jobKick (j : JobState) (connRes : Except BeanstalkcError Unit) :
    Except BeanstalkcError Unit × JobState × Bool :=
  (connRes, j, true)

/-- `Job::stats` (src/job.rs lines 213-215): always delegates
`conn.stats_job(self.id)` and leaves the flag unchanged. -/
def jobStats (j : JobState)
    (connRes : Except BeanstalkcError (List (String × String))) :
    Except BeanstalkcError (List (String × String)) × JobState × Bool :=
  (connRes, j, true)

/-- `Job::priority` (src/job.rs lines 218-224): run the stats lookup,
swallow a failure with `.unwrap_or_default()` (an empty map), read the
`pri` entry and parse it as `u32`, falling back to
`DEFAULT_JOB_PRIORITY` when the entry is absent or unparsable. -/
def jobPriority (statsRes : Except BeanstalkcError (List (String × String))) :
    Nat :=
  let statsMap := match statsRes with
                  | .ok m => m
                  | .error _ => []
  match statsMap.lookup "pri" with
  | some v => (parseU32Str v).getD DEFAULT_JOB_PRIORITY
  | none => DEFAULT_JOB_PRIORITY

/-- `Job::release_default` (src/job.rs lines 92-95): compute the
fallback priority from the stats outcome, then release with
`DEFAULT_JOB_DELAY`. -/
def jobReleaseDefault (j : JobState)
    (statsRes : Except BeanstalkcError (List (String × String)))
    (connRes : Except BeanstalkcError Unit) :
    Except BeanstalkcError Unit × JobState × Bool :=
  jobRelease j (jobPriority statsRes) DEFAULT_JOB_DELAY connRes

/-- `Job::bury_default` (src/job.rs lines 133-136). -/
def jobBuryDefault (j : JobState)
    (statsRes : Except BeanstalkcError (List (String × String)))
    (connRes : Except BeanstalkcError Unit) :
    Except BeanstalkcError Unit × JobState × Bool :=
  jobBury j (jobPriority statsRes) connRes

/-! ## Theorems for the claims -/

/-- C1: the claim says a FOUND reply's announced body (length at
parameter index 1) is read and stored; in the code the body-length
`match` in `Request::send` only covers `Ok` (index 0) and `Reserved`
(index 1), so a `FOUND 1 5` reply followed by its five body bytes is
decoded with `body = none` — the announced body is never read (and its
bytes are left pending on the stream). -/
theorem claim_C1_found_reply_body_left_absent :
    sendModel (okStream (strBytes "FOUND 1 5\r\nhello\r\n")) (peek_job 1).buildBytes
      = .result (.ok ⟨.Found, ["1", "5"], none⟩) ∧
    bodyLenParamIndex .Found = none ∧
    bodyLenParamIndex .Ok = some 0 ∧
    bodyLenParamIndex .Reserved = some 1 := by
  decide

/-- C2: the claim says a read supplying fewer than the announced
`N + 2` bytes must be a decode failure.  `Request::send` issues one
`stream.read` into a zero-filled `N + 2` buffer and ignores the count
read, so when only the five bytes `hello` follow `RESERVED 5 11` the
decoder succeeds with the zero-padded 11-byte body
`hello\x00\x00\x00\x00\x00\x00` instead of failing; with the full
`N + 2` bytes present it does return the exact 11-byte payload with the
terminator consumed and excluded. -/
theorem claim_C2_short_read_zero_padded_not_error :
    sendModel (okStream (strBytes "RESERVED 5 11\r\nhello")) (reserve none).buildBytes
      = .result (.ok ⟨.Reserved, ["5", "11"], some "hello\x00\x00\x00\x00\x00\x00"⟩) ∧
    ("hello\x00\x00\x00\x00\x00\x00" : String).length = 11 ∧
    sendModel (okStream (strBytes "RESERVED 5 11\r\nhello world\r\n")) (reserve none).buildBytes
      = .result (.ok ⟨.Reserved, ["5", "11"], some "hello world"⟩) := by
  decide

/-- C3: the spec's byte-exact examples hold (`put 0 10 100 4\r\nRust\r\n`,
`reserve\r\n`, `reserve-with-timeout 10\r\n`, `delete 1\r\n`), but the
claim that body bytes are appended verbatim for every byte sequence
fails: `build` pushes the body through `String::from_utf8_lossy`, so the
non-UTF-8 body `[0xFF]` is announced with length 1 yet emitted as the
three replacement bytes `EF BF BD`. -/
theorem claim_C3_build_bytes_lossy_body :
    (put (strBytes "Rust") 0 10 100).buildBytes = strBytes "put 0 10 100 4\r\nRust\r\n" ∧
    (reserve none).buildBytes = strBytes "reserve\r\n" ∧
    (reserve (some 10)).buildBytes = strBytes "reserve-with-timeout 10\r\n" ∧
    (deleteCmd 1).buildBytes = strBytes "delete 1\r\n" ∧
    (put [0xFF] 0 0 0).buildBytes
      = strBytes "put 0 0 0 1\r\n" ++ [0xEF, 0xBF, 0xBD] ++ crlf ∧
    (put [0xFF] 0 0 0).buildBytes
      ≠ strBytes "put 0 0 0 1\r\n" ++ [0xFF] ++ crlf := by
  decide

/-- C4: `Beanstalkc::send` classifies every decoded status by the
command's declared sets — success when in the expected-ok list,
`CommandFailed` carrying the status when in the expected-error list,
`UnexpectedResponse` otherwise; `release`'s sets are
`[Released, Buried]` / `[NotFound]`; and with no open transport every
operation returns `ConnectionError` with nothing written to the
socket. -/
theorem claim_C4_dispatch_classification :
    (∀ c resp, resp.status ∈ c.expected_ok_status →
      classifyResponse c resp = .ok resp) ∧
    (∀ c resp, resp.status ∉ c.expected_ok_status →
      resp.status ∈ c.expected_error_status →
      classifyResponse c resp = .error (.CommandFailed (statusDebug resp.status))) ∧
    (∀ c resp, resp.status ∉ c.expected_ok_status →
      resp.status ∉ c.expected_error_status →
      classifyResponse c resp = .error (.UnexpectedResponse (statusDebug resp.status))) ∧
    (∀ job_id priority delaySecs,
      (release job_id priority delaySecs).expected_ok_status = [.Released, .Buried] ∧
      (release job_id priority delaySecs).expected_error_status = [.NotFound]) ∧
    (∀ c, clientSend none c =
      (.result (.error (.ConnectionError "invalid connection")), [])) ∧
    (∀ job_id priority delaySecs,
      clientRelease none job_id priority delaySecs =
        (.result (.error (.ConnectionError "invalid connection")), [])) := by
  refine ⟨?_, ?_, ?_, ?_, ?_, ?_⟩
  · intro c resp h
    simp [classifyResponse, h]
  · intro c resp h1 h2
    simp [classifyResponse, h1, h2]
  · intro c resp h1 h2
    simp [classifyResponse, h1, h2]
  · intro job_id priority delaySecs
    exact ⟨rfl, rfl⟩
  · intro c
    rfl
  · intro job_id priority delaySecs
    rfl

/-- C4 witness: the classification applied to the release command at the
three kinds of status (`Buried` success, `NotFound` domain failure,
`InternalError` protocol anomaly). -/
theorem claim_C4_dispatch_classification_witness :
    classifyResponse (release 1 0 0) ⟨.Buried, [], none⟩ = .ok ⟨.Buried, [], none⟩ ∧
    classifyResponse (release 1 0 0) ⟨.NotFound, [], none⟩
      = .error (.CommandFailed "NotFound") ∧
    classifyResponse (release 1 0 0) ⟨.InternalError, [], none⟩
      = .error (.UnexpectedResponse "InternalError") :=
  ⟨claim_C4_dispatch_classification.1 (release 1 0 0) ⟨.Buried, [], none⟩ (by decide),
   claim_C4_dispatch_classification.2.1 (release 1 0 0) ⟨.NotFound, [], none⟩
     (by decide) (by decide),
   claim_C4_dispatch_classification.2.2.1 (release 1 0 0) ⟨.InternalError, [], none⟩
     (by decide) (by decide)⟩

/-- C5 counterexample: on the unrecognized token `BOGUS`,
`Status::from_str` returns `CommandFailed "BOGUS"`, not the
`UnexpectedResponse` error the claim requires. -/
theorem claim_C5_counterexample :
    statusFromStr "BOGUS" = .error (.CommandFailed "BOGUS") ∧
    isUnexpectedResponseErr (statusFromStr "BOGUS") = false := by
  decide

/-- C5 (amended): for every status-line token that is not one of the 23
recognized keywords, status decoding fails — without panicking — with a
`CommandFailed` error carrying the raw token (not `UnexpectedResponse`). -/
theorem claim_C5_unrecognized_token_command_failed (s : String)
    (h : s ∉ statusKeywords) :
    statusFromStr s = .error (.CommandFailed s) := by
  simp only [statusKeywords, List.mem_cons, List.not_mem_nil, or_false] at h
  push_neg at h
  obtain ⟨h1, h2, h3, h4, h5, h6, h7, h8, h9, h10, h11, h12, h13, h14, h15,
    h16, h17, h18, h19, h20, h21, h22, h23⟩ := h
  simp [statusFromStr, h1, h2, h3, h4, h5, h6, h7, h8, h9, h10, h11, h12,
    h13, h14, h15, h16, h17, h18, h19, h20, h21, h22, h23]

/-- C5 witness: the amended statement at the concrete token `WHATEVER`. -/
theorem claim_C5_unrecognized_token_command_failed_witness :
    statusFromStr "WHATEVER" = .error (.CommandFailed "WHATEVER") :=
  claim_C5_unrecognized_token_command_failed "WHATEVER" (by decide)

/-- C6 counterexample: a present, valid-UTF-8 body that is malformed for
the expected format does not produce an error — `body_as_vec` of the
map-shaped body `name: default` is the swallowed default `ok []`, and
`body_as_map` of the list-shaped body `- default` likewise. -/
theorem claim_C6_counterexample :
    bodyAsVec (some (strBytes "name: default")) = .ok [] ∧
    isUnexpectedResponseErr (bodyAsVec (some (strBytes "name: default"))) = false ∧
    bodyAsMap (some (strBytes "- default")) = .ok [] := by
  decide

/-- C6 (amended): the list/map accessors parse the spec's example bodies
(`- default\n- jobs\n` to the two-element list, `name: default\nuptime:
12345` to the two-entry map), return an empty container for an absent
body, and fail on a non-UTF-8 body; but for a UTF-8 body the YAML
collaborator fails on, `.unwrap_or_default()` yields the empty container
instead of an error. -/
theorem claim_C6_body_accessors :
    bodyAsVec none = .ok [] ∧
    bodyAsMap none = .ok [] ∧
    bodyAsVec (some (strBytes "- default\n- jobs\n")) = .ok ["default", "jobs"] ∧
    bodyAsMap (some (strBytes "name: default\nuptime: 12345"))
      = .ok [("name", "default"), ("uptime", "12345")] ∧
    (∀ b, utf8DecodeOpt b = none →
      isUnexpectedResponseErr (bodyAsVec (some b)) = true ∧
      isUnexpectedResponseErr (bodyAsMap (some b)) = true) ∧
    (∀ (p : String → Option (List String)) b cs,
      utf8DecodeOpt b = some cs → p ⟨cs⟩ = none →
      bodyAsVecGen p (some b) = .ok []) ∧
    (∀ (p : String → Option (List (String × String))) b cs,
      utf8DecodeOpt b = some cs → p ⟨cs⟩ = none →
      bodyAsMapGen p (some b) = .ok []) := by
  refine ⟨by decide, by decide, by decide, by decide, ?_, ?_, ?_⟩
  · intro b h
    constructor
    · simp [bodyAsVec, bodyAsVecGen, h, isUnexpectedResponseErr]
    · simp [bodyAsMap, bodyAsMapGen, h, isUnexpectedResponseErr]
  · intro p b cs h1 h2
    simp [bodyAsVecGen, h1, h2]
  · intro p b cs h1 h2
    simp [bodyAsMapGen, h1, h2]

/-- C6 witness: the generic default-on-parse-failure component applied
to the modelled list parser on the concrete body `x: y`, and the
non-UTF-8 component at the concrete body `[0xFF]`. -/
theorem claim_C6_body_accessors_witness :
    bodyAsVecGen parseListBody (some (strBytes "x: y")) = .ok [] ∧
    isUnexpectedResponseErr (bodyAsVec (some [0xFF])) = true :=
  ⟨claim_C6_body_accessors.2.2.2.2.2.1 parseListBody (strBytes "x: y")
      ("x: y".data) (by decide) (by decide),
   (claim_C6_body_accessors.2.2.2.2.1 [0xFF] (by decide)).1⟩

/-- C7: the Job handle's two-state machine: `release`/`bury`/`touch` are
no-op successes sending nothing while the reserved flag is false;
`delete` always sends and clears the flag on success; `release`/`bury`
clear the flag on success; `kick`/`stats` never change the flag; and
after a successful `delete`, a subsequent `release` or `bury` is a no-op
success. -/
theorem claim_C7_job_state_machine :
    (∀ j p d r, j.reserved = false → jobRelease j p d r = (.ok (), j, false)) ∧
    (∀ j p r, j.reserved = false → jobBury j p r = (.ok (), j, false)) ∧
    (∀ j r, j.reserved = false → jobTouch j r = (.ok (), j, false)) ∧
    (∀ j r, (jobDelete j r).2.2 = true) ∧
    (∀ j, jobDelete j (.ok ()) = (.ok (), ⟨j.id, false⟩, true)) ∧
    (∀ j p d, j.reserved = true →
      jobRelease j p d (.ok ()) = (.ok (), ⟨j.id, false⟩, true)) ∧
    (∀ j p, j.reserved = true →
      jobBury j p (.ok ()) = (.ok (), ⟨j.id, false⟩, true)) ∧
    (∀ j r, (jobKick j r).2.1 = j) ∧
    (∀ j r, (jobStats j r).2.1 = j) ∧
    (∀ j p d r, jobRelease (jobDelete j (.ok ())).2.1 p d r
      = (.ok (), (jobDelete j (.ok ())).2.1, false)) ∧
    (∀ j p r, jobBury (jobDelete j (.ok ())).2.1 p r
      = (.ok (), (jobDelete j (.ok ())).2.1, false)) := by
  refine ⟨?_, ?_, ?_, ?_, ?_, ?_, ?_, ?_, ?_, ?_, ?_⟩
  · intro j p d r h; simp [jobRelease, h]
  · intro j p r h; simp [jobBury, h]
  · intro j r h; simp [jobTouch, h]
  · intro j r; cases r <;> rfl
  · intro j; rfl
  · intro j p d h; simp [jobRelease, h]
  · intro j p h; simp [jobBury, h]
  · intro j r; rfl
  · intro j r; rfl
  · intro j p d r; simp [jobDelete, jobRelease]
  · intro j p r; simp [jobDelete, jobBury]

/-- C7 witness: the no-op components at a concrete non-reserved handle
(the delegated outcome is an error, yet the handle reports success
without sending), and delete-then-release on a reserved handle. -/
theorem claim_C7_job_state_machine_witness :
    jobRelease ⟨7, false⟩ 0 0 (.error (.ConnectionError "down"))
      = (.ok (), ⟨7, false⟩, false) ∧
    jobRelease (jobDelete ⟨7, true⟩ (.ok ())).2.1 0 0 (.error (.ConnectionError "down"))
      = (.ok (), (jobDelete ⟨7, true⟩ (.ok ())).2.1, false) :=
  ⟨claim_C7_job_state_machine.1 ⟨7, false⟩ 0 0 (.error (.ConnectionError "down")) rfl,
   claim_C7_job_state_machine.2.2.2.2.2.2.2.2.2.1 ⟨7, true⟩ 0 0
     (.error (.ConnectionError "down"))⟩

/-- C8: the claim says every socket write, flush or read failure during
the round trip surfaces as `ConnectionError` and never panics.  In the
code, `write(..).unwrap()` and `flush().unwrap()` panic on failure, a
`read_line` failure is silently dropped and resurfaces as
`UnexpectedResponse "empty response"`, and only the body-read failure is
converted to `ConnectionError`. -/
theorem claim_C8_write_flush_failure_panics :
    (∀ (m : String) f rl rr inp msg,
      sendModel ⟨.error m, f, rl, rr, inp⟩ msg = .panicked) ∧
    (∀ (m : String) rl rr inp msg,
      sendModel ⟨.ok (), .error m, rl, rr, inp⟩ msg = .panicked) ∧
    (∀ (m : String) rr inp msg,
      sendModel ⟨.ok (), .ok (), .error m, rr, inp⟩ msg
        = .result (.error (.UnexpectedResponse "empty response"))) ∧
    sendModel ⟨.ok (), .ok (), .ok (), .error "broken pipe",
        strBytes "RESERVED 5 11\r\nhello world\r\n"⟩ (reserve none).buildBytes
      = .result (.error (.ConnectionError "broken pipe")) := by
  refine ⟨?_, ?_, ?_, by decide⟩
  · intro m f rl rr inp msg; rfl
  · intro m rl rr inp msg; rfl
  · intro m rr inp msg; rfl

/-- C9: `Job::priority` is total and falls back to the default priority
on a failed stats lookup, a missing `pri` entry, or an unparsable `pri`
value, and the outcome of `release_default`/`bury_default` is the same
whatever the stats outcome was — no stats-lookup error ever reaches the
caller. -/
theorem claim_C9_priority_fallback :
    (∀ e, jobPriority (.error e) = DEFAULT_JOB_PRIORITY) ∧
    (∀ m, m.lookup "pri" = none → jobPriority (.ok m) = DEFAULT_JOB_PRIORITY) ∧
    (∀ m v, m.lookup "pri" = some v → parseU32Str v = none →
      jobPriority (.ok m) = DEFAULT_JOB_PRIORITY) ∧
    (∀ j s c, jobReleaseDefault j s c
      = jobRelease j (jobPriority s) DEFAULT_JOB_DELAY c) ∧
    (∀ j s1 s2 c, jobReleaseDefault j s1 c = jobReleaseDefault j s2 c) ∧
    (∀ j s1 s2 c, jobBuryDefault j s1 c = jobBuryDefault j s2 c) := by
  refine ⟨?_, ?_, ?_, ?_, ?_, ?_⟩
  · intro e; rfl
  · intro m h; simp [jobPriority, h]
  · intro m v h1 h2; simp [jobPriority, h1, h2]
  · intro j s c; rfl
  · intro j s1 s2 c; simp [jobReleaseDefault, jobRelease]
  · intro j s1 s2 c; simp [jobBuryDefault, jobBury]

/-- C9 witness: the fallback at a failed lookup, a stats map without
`pri`, and an unparsable `pri` value. -/
theorem claim_C9_priority_fallback_witness :
    jobPriority (.error (.ConnectionError "down")) = DEFAULT_JOB_PRIORITY ∧
    jobPriority (.ok [("tube", "default")]) = DEFAULT_JOB_PRIORITY ∧
    jobPriority (.ok [("pri", "abc")]) = DEFAULT_JOB_PRIORITY :=
  ⟨claim_C9_priority_fallback.1 (.ConnectionError "down"),
   claim_C9_priority_fallback.2.1 [("tube", "default")] (by decide),
   claim_C9_priority_fallback.2.2.1 [("pri", "abc")] "abc" (by decide) (by decide)⟩

/-- C10: the default job priority constant, written `2 ^ 31` in Rust
where `^` is bitwise XOR, equals 29 and not 2147483648; it is the
priority `put_default` encodes (`29`, with default delay 0 and ttr 120)
and the value `release`'s default variant and the Job priority fallback
use. -/
theorem claim_C10_default_priority_is_xor :
    DEFAULT_JOB_PRIORITY = 29 ∧
    DEFAULT_JOB_PRIORITY ≠ 2147483648 ∧
    (∀ b : List Byte,
      (put b DEFAULT_JOB_PRIORITY DEFAULT_JOB_DELAY DEFAULT_JOB_TTR).args
        = ["29", "0", "120"]) ∧
    (∀ job_id, (release job_id DEFAULT_JOB_PRIORITY DEFAULT_JOB_DELAY).args
      = [toString job_id, "29", "0"]) ∧
    jobPriority (.error (.UnexpectedResponse "x")) = 29 := by
  refine ⟨by decide, by decide, ?_, ?_, by decide⟩
  · intro b; rfl
  · intro job_id; rfl

end Beanstalk
